import Mathlib

/-!
Verification of `src/flash/image/style_transfer/model.py` (the `StyleTransfer`
task of lightning-flash) against its natural-language specification.

The file shallowly embeds the Python module.  Images and feature tensors are
modelled over the rationals; a feature map extracted at one encoder layer is a
channel-by-position matrix `List (List ℚ)`.  Behavior of external collaborators
(pystiche operators, the flash `Task` base class, Lightning's
`save_hyperparameters`, the `_utils.raise_not_supported` helper) is modelled
from the specification, as marked in the doc comments; everything else is a
direct translation of the source.
-/

namespace StyleTransferModel

/-- An image value.  `tensor` is an in-memory image tensor (abstracted by an
identifier), `fromPath` is an image decoded from a file path, and `stock` is a
named demo image read at a given size. -/
inductive Image where
  | tensor (id : ℕ)
  | fromPath (path : String)
  | stock (name : String) (size : ℕ)
deriving DecidableEq, Repr

/-- Modelled from the spec: `pystiche.image.read_image` decodes the image
stored at a file path ("load from path if a path is given"). -/
def read_image (path : String) : Image := Image.fromPath path

/-- From source, `StyleTransfer.default_style_image` (model.py lines 72-73):
returns `pystiche.demo.images()["paint"].read(size=256)`, i.e. the demo
"paint" stock image read at size 256. -/
def default_style_image : Image := Image.stock "paint" 256

/-- Dot product of two flattened channel feature vectors. -/
def dot (a b : List ℚ) : ℚ := (List.zipWith (fun x y => x * y) a b).sum

/-- The un-normalized Gram matrix of an encoded feature map
(channels × positions): entry (i, j) is the dot product of channels i and j. -/
def gram_matrix (x : List (List ℚ)) : List (List ℚ) :=
  x.map (fun r => x.map (fun s => dot r s))

/-- Modelled from the spec: the base `pystiche.ops.GramOperator.enc_to_repr`
produces the Gram matrix of the encoding normalized once by the channel count
("once from the base operator's own normalization"). -/
def GramOperator_base_enc_to_repr (x : List (List ℚ)) : List (List ℚ) :=
  (gram_matrix x).map (List.map (fun v => v / (x.length : ℚ)))

/-- From source, the `GramOperator.enc_to_repr` override inside
`StyleTransfer._modified_gram_loss` (model.py lines 82-85):
`repr = super().enc_to_repr(enc)`, `num_channels = repr.size()[1]`,
`return repr / num_channels`.  The representation has one row per channel, so
`repr.size()[1]` is its row count. -/
def GramOperator_enc_to_repr (x : List (List ℚ)) : List (List ℚ) :=
  let rep := GramOperator_base_enc_to_repr x
  let num_channels := rep.length
  rep.map (List.map (fun v => v / (num_channels : ℚ)))

/-- Modelled from the spec: elementwise squared-difference comparison between
two equally-shaped representations (the comparison step shared by the pystiche
encoding-comparison operators). -/
def sqDiffMat (a b : List (List ℚ)) : ℚ :=
  ((List.zipWith (List.zipWith (fun x y => (x - y) ^ 2)) a b).map List.sum).sum

/-- Modelled from the spec: a pystiche encoding-comparison operator.  It holds
the encoder of one layer, a score weight, the representation-extraction step
`enc_to_repr`, and the representation comparison; its score on a (target,
input) image pair is `score_weight` times the comparison of the two
representations of the encoded images. -/
structure EncodingComparisonOperator where
  encoder : Image → List (List ℚ)
  score_weight : ℚ
  enc_to_repr : List (List ℚ) → List (List ℚ)
  compare_repr : List (List ℚ) → List (List ℚ) → ℚ

/-- Modelled from the spec: the score of an encoding-comparison operator. -/
def EncodingComparisonOperator.score (op : EncodingComparisonOperator)
    (target input : Image) : ℚ :=
  op.score_weight *
    op.compare_repr (op.enc_to_repr (op.encoder target))
      (op.enc_to_repr (op.encoder input))

/-- Modelled from the spec: the base `pystiche.ops.GramOperator`, whose
representation extraction is `GramOperator_base_enc_to_repr`. -/
def GramOperator (encoder : Image → List (List ℚ))
    (score_weight : ℚ) : EncodingComparisonOperator :=
  { encoder := encoder
    score_weight := score_weight
    enc_to_repr := GramOperator_base_enc_to_repr
    compare_repr := sqDiffMat }

/-- From source, `StyleTransfer._modified_gram_loss` (model.py lines 75-87):
the returned operator is the base `GramOperator` with only `enc_to_repr`
overridden by the extra division by the channel count. -/
def modified_gram_loss (encoder : Image → List (List ℚ))
    (score_weight : ℚ) : EncodingComparisonOperator :=
  { GramOperator encoder score_weight with enc_to_repr := GramOperator_enc_to_repr }

theorem gram_matrix_length (x : List (List ℚ)) :
    (gram_matrix x).length = x.length := by
  simp [gram_matrix]

theorem base_repr_length (x : List (List ℚ)) :
    (GramOperator_base_enc_to_repr x).length = x.length := by
  simp [GramOperator_base_enc_to_repr, gram_matrix]

/-- C1: for every encoded input, the modified Gram operator's `enc_to_repr`
is exactly the base Gram operator's representation divided by the channel
count of that representation, hence the Gram matrix normalized by the channel
count squared; the score weight, comparison, and encoder are inherited
unchanged from the base operator. -/
theorem C1_modified_gram_double_normalization
    (encoder : Image → List (List ℚ)) (w : ℚ) (x : List (List ℚ)) :
    (modified_gram_loss encoder w).enc_to_repr x =
        ((GramOperator encoder w).enc_to_repr x).map
          (List.map (fun v => v / (x.length : ℚ)))
      ∧ (modified_gram_loss encoder w).enc_to_repr x =
        (gram_matrix x).map (List.map (fun v => v / ((x.length : ℚ)) ^ 2))
      ∧ (modified_gram_loss encoder w).score_weight =
        (GramOperator encoder w).score_weight
      ∧ (modified_gram_loss encoder w).compare_repr =
        (GramOperator encoder w).compare_repr
      ∧ (modified_gram_loss encoder w).encoder =
        (GramOperator encoder w).encoder := by
  refine ⟨?_, ?_, rfl, rfl, rfl⟩
  · simp only [modified_gram_loss, GramOperator, GramOperator_enc_to_repr,
      base_repr_length]
  · simp only [modified_gram_loss, GramOperator, GramOperator_enc_to_repr,
      GramOperator_base_enc_to_repr, List.length_map, gram_matrix_length,
      List.map_map]
    refine List.map_congr_left (fun r _ => ?_)
    simp only [Function.comp, List.map_map]
    refine List.map_congr_left (fun v _ => ?_)
    simp only [Function.comp]
    rw [div_div, sq]

/-- Modelled from the spec: a pystiche multi-layer encoder, a mapping from
named layers to the feature map of an input image at that layer. -/
structure MultiLayerEncoder where
  extract_encoder : String → Image → List (List ℚ)

/-- Modelled from the spec: `pystiche.ops.FeatureReconstructionOperator`
compares the features of one encoder layer directly (its representation is the
encoding itself). -/
def FeatureReconstructionOperator (encoder : Image → List (List ℚ))
    (score_weight : ℚ) : EncodingComparisonOperator :=
  { encoder := encoder
    score_weight := score_weight
    enc_to_repr := id
    compare_repr := sqDiffMat }

/-- Modelled from the spec: a pystiche operator container; its score is its
score weight times the sum of the scores of its child operators. -/
structure OperatorContainer where
  score_weight : ℚ
  children : List EncodingComparisonOperator

/-- Modelled from the spec: the score of an operator container. -/
def OperatorContainer.score (c : OperatorContainer) (target input : Image) : ℚ :=
  c.score_weight * (c.children.map (fun op => op.score target input)).sum

/-- Modelled from the spec: `pystiche.ops.MultiLayerEncodingOperator` builds
one child operator per named layer through the supplied callback; with
`layer_weights="sum"` every layer weight is 1 so the per-layer scores are
combined by summation, and the combined score is scaled by `score_weight`. -/
def MultiLayerEncodingOperator (mle : MultiLayerEncoder) (layers : List String)
    (get_encoding_op : (Image → List (List ℚ)) → ℚ → EncodingComparisonOperator)
    (layer_weights : String) (score_weight : ℚ) : OperatorContainer :=
  { score_weight := score_weight
    children := layers.map (fun l =>
      get_encoding_op (mle.extract_encoder l)
        (if layer_weights = "sum" then 1 else 1 / (layers.length : ℚ))) }

/-- Modelled from the spec: `pystiche.loss.PerceptualLoss` composes a content
operator and a style operator additively and holds the mutable current content
and style images that the operators compare against. -/
structure PerceptualLoss where
  content_loss : EncodingComparisonOperator
  style_loss : OperatorContainer
  content_image : Option Image := none
  style_image : Option Image := none

/-- Modelled from the spec: binds the current style image, overwriting any
previous binding. -/
def PerceptualLoss.set_style_image (pl : PerceptualLoss) (img : Image) :
    PerceptualLoss :=
  { pl with style_image := some img }

/-- Modelled from the spec: binds the current content image, overwriting any
previous binding. -/
def PerceptualLoss.set_content_image (pl : PerceptualLoss) (img : Image) :
    PerceptualLoss :=
  { pl with content_image := some img }

/-- Modelled from the spec: evaluating the perceptual loss on an output image
and taking `.total()` yields the content operator's score against the bound
content image plus the style operator's score against the bound style image
(an unbound image contributes nothing). -/
def PerceptualLoss.total (pl : PerceptualLoss) (output : Image) : ℚ :=
  (match pl.content_image with
    | some c => pl.content_loss.score c output
    | none => 0)
  + (match pl.style_image with
    | some s => pl.style_loss.score s output
    | none => 0)

/-- From source, `StyleTransfer._get_perceptual_loss` (model.py lines 89-109).
The backbone registry (`STYLE_TRANSFER_BACKBONES`, outside this module) is
passed in as the mapping `backbones` from backbone name to encoder. -/
def get_perceptual_loss (backbones : String → MultiLayerEncoder)
    (backbone : String) (content_layer : String) (content_weight : ℚ)
    (style_layers : List String) (style_weight : ℚ) : PerceptualLoss :=
  let mle := backbones backbone
  let content_loss :=
    FeatureReconstructionOperator (mle.extract_encoder content_layer) content_weight
  let style_loss :=
    MultiLayerEncodingOperator mle style_layers
      (fun encoder layer_weight => modified_gram_loss encoder layer_weight)
      "sum" style_weight
  { content_loss := content_loss, style_loss := style_loss }

/-- Modelled from the spec: the optimizer constructor argument (a class or
instance); the source default is `torch.optim.Adam`. -/
inductive OptimizerSpec where
  | adam
  | sgd
  | custom (name : String)
deriving DecidableEq, Repr

/-- Modelled from the spec: an optimizer/scheduler keyword-argument record. -/
def Kwargs : Type := List (String × ℚ)

/-- Modelled from the spec: the scheduler constructor argument (a class, a
name, or an instance), abstracted by a name. -/
def SchedulerSpec : Type := String

/-- Modelled from the spec: the serializer constructor argument, abstracted by
a name. -/
def SerializerSpec : Type := String

/-- The constructor arguments of `StyleTransfer.__init__` with the source's
default values (model.py lines 24-38).  A style image argument is `none`, a
path `some (Sum.inl path)`, or an in-memory tensor `some (Sum.inr image)`;
the model argument is an image-to-image function. -/
structure StyleTransferArgs where
  style_image : Option (String ⊕ Image) := none
  model : Option (Image → Image) := none
  backbone : String := "vgg16"
  content_layer : String := "relu2_2"
  content_weight : ℚ := 100000
  style_layers : List String := ["relu1_2", "relu2_2", "relu3_3", "relu4_3"]
  style_weight : ℚ := 10000000000
  optimizer : OptimizerSpec := OptimizerSpec.adam
  optimizer_kwargs : Option Kwargs := none
  scheduler : Option SchedulerSpec := none
  scheduler_kwargs : Option Kwargs := none
  learning_rate : ℚ := 1 / 1000
  serializer : Option SerializerSpec := none

/-- Modelled from the spec: the reproducible configuration record persisted by
`save_hyperparameters(ignore="style_image")` — every constructor argument
except the raw style image. -/
structure HParams where
  model : Option (Image → Image)
  backbone : String
  content_layer : String
  content_weight : ℚ
  style_layers : List String
  style_weight : ℚ
  optimizer : OptimizerSpec
  optimizer_kwargs : Option Kwargs
  scheduler : Option SchedulerSpec
  scheduler_kwargs : Option Kwargs
  learning_rate : ℚ
  serializer : Option SerializerSpec

/-- Modelled from the spec: Lightning's `save_hyperparameters` with
`ignore="style_image"` records all constructor arguments but the style
image. -/
def save_hyperparameters (args : StyleTransferArgs) : HParams :=
  { model := args.model
    backbone := args.backbone
    content_layer := args.content_layer
    content_weight := args.content_weight
    style_layers := args.style_layers
    style_weight := args.style_weight
    optimizer := args.optimizer
    optimizer_kwargs := args.optimizer_kwargs
    scheduler := args.scheduler
    scheduler_kwargs := args.scheduler_kwargs
    learning_rate := args.learning_rate
    serializer := args.serializer }

/-- Modelled from the spec: `pystiche.demo.transformer()`, the default generic
transformer network used when no model is given.  Its internal weights are
outside this module; it is a fixed image-to-image function. -/
def demo_transformer : Image → Image := fun img => img

/-- The state of a constructed `StyleTransfer` task: the persisted
hyperparameters, the model (as its forward function, per the flash `Task`
base class), and the shared perceptual-loss object. -/
structure StyleTransfer where
  hparams : HParams
  model : Image → Image
  perceptual_loss : PerceptualLoss

/-- From source, `StyleTransfer.__init__` (model.py lines 24-70): persists the
hyperparameters ignoring the style image; resolves the style image (default
stock image if none, `read_image` of a path, an in-memory tensor as-is);
resolves the model (default transformer if none); assembles the perceptual
loss and binds the resolved style image into it. -/
def StyleTransfer.init (backbones : String → MultiLayerEncoder)
    (args : StyleTransferArgs) : StyleTransfer :=
  let style_image :=
    match args.style_image with
    | none => default_style_image
    | some (Sum.inl path) => read_image path
    | some (Sum.inr t) => t
  let model :=
    match args.model with
    | none => demo_transformer
    | some m => m
  let perceptual_loss :=
    get_perceptual_loss backbones args.backbone args.content_layer
      args.content_weight args.style_layers args.style_weight
  let perceptual_loss := perceptual_loss.set_style_image style_image
  { hparams := save_hyperparameters args
    model := model
    perceptual_loss := perceptual_loss }

/-- Modelled from the spec: the batch keys of `DefaultDataKeys`
(flash.core.data.data_source, outside this module); the training step reads
the image stored under the input key. -/
inductive DefaultDataKeys where
  | input
  | target
  | preds
  | metadata
deriving DecidableEq, Repr

/-- A batch maps each data key to an image. -/
def Batch : Type := DefaultDataKeys → Image

/-- Modelled from the spec: the flash `Task` forward pass applies the model to
the input. -/
def StyleTransfer.forward (st : StyleTransfer) (x : Image) : Image :=
  st.model x

/-- From source, `StyleTransfer.training_step` (model.py lines 111-116): reads
the input image from the batch, rebinds it as the perceptual loss's content
image (a mutation of the shared loss object, reflected in the returned
state), runs the model forward on the input, and returns the total perceptual
loss of the output image. -/
def StyleTransfer.training_step (st : StyleTransfer) (batch : Batch)
    (batch_idx : ℕ) : ℚ × StyleTransfer :=
  let input_image := batch DefaultDataKeys.input
  let pl := st.perceptual_loss.set_content_image input_image
  let st := { st with perceptual_loss := pl }
  let output_image := st.forward input_image
  (st.perceptual_loss.total output_image, st)

/-- Modelled from the spec: the unsupported-operation signal raised by
`_utils.raise_not_supported` (a module of this repository outside src/),
carrying the name of the unsupported operation. -/
inductive NotSupportedError where
  | mk (operation : String)
deriving DecidableEq, Repr

/-- Modelled from the spec: `raise_not_supported` always fails with the
unsupported-operation signal naming the given operation. -/
def raise_not_supported (operation : String) : Except NotSupportedError ℚ :=
  Except.error (NotSupportedError.mk operation)

/-- From source, `StyleTransfer.validation_step` (model.py lines 118-119):
raises the unsupported-operation signal for "validation"; the task state is
returned untouched. -/
def StyleTransfer.validation_step (st : StyleTransfer) (batch : Batch)
    (batch_idx : ℕ) : Except NotSupportedError ℚ × StyleTransfer :=
  (raise_not_supported "validation", st)

/-- From source, `StyleTransfer.test_step` (model.py lines 121-122): raises
the unsupported-operation signal for "test"; the task state is returned
untouched. -/
def StyleTransfer.test_step (st : StyleTransfer) (batch : Batch)
    (batch_idx : ℕ) : Except NotSupportedError ℚ × StyleTransfer :=
  (raise_not_supported "test", st)

/-! Concrete fixtures used by the witnesses and the counterexample. -/

/-- A small concrete multi-layer encoder keyed on the image and the layer
name, used to instantiate theorems on concrete inputs. -/
def testEncoder : MultiLayerEncoder :=
  { extract_encoder := fun _ img =>
      match img with
      | Image.tensor n => [[(n : ℚ)]]
      | Image.fromPath p => [[(p.length : ℚ)]]
      | Image.stock _ size => [[(size : ℚ)]] }

/-- A concrete backbone registry mapping every backbone name to
`testEncoder`. -/
def testRegistry : String → MultiLayerEncoder := fun _ => testEncoder

/-- A concrete task built with the default arguments and an in-memory style
image. -/
def testState : StyleTransfer :=
  StyleTransfer.init testRegistry
    { style_image := some (Sum.inr (Image.tensor 7)) }

/-- `testState` with a different recorded learning rate but the same model and
perceptual loss. -/
def testState2 : StyleTransfer :=
  { testState with hparams := { testState.hparams with learning_rate := 1 } }

/-- A concrete batch whose images are all `Image.tensor 3`. -/
def testBatch : Batch := fun _ => Image.tensor 3

/-! The claims. -/

/-- C2: for every batch and batch index, `validation_step` fails with the
unsupported-operation signal naming "validation" and `test_step` with the one
naming "test"; the results are independent of the task state (hence of the
model) and of the batch, so neither call reaches the model's forward
computation. -/
theorem C2_validation_test_raise (st : StyleTransfer) (batch : Batch)
    (batch_idx : ℕ) :
    (st.validation_step batch batch_idx).1
        = Except.error (NotSupportedError.mk "validation")
      ∧ (st.test_step batch batch_idx).1
        = Except.error (NotSupportedError.mk "test")
      ∧ (∀ (st₂ : StyleTransfer) (b₂ : Batch) (i₂ : ℕ),
          (st.validation_step batch batch_idx).1 = (st₂.validation_step b₂ i₂).1)
      ∧ (∀ (st₂ : StyleTransfer) (b₂ : Batch) (i₂ : ℕ),
          (st.test_step batch batch_idx).1 = (st₂.test_step b₂ i₂).1) :=
  ⟨rfl, rfl, fun _ _ _ => rfl, fun _ _ _ => rfl⟩

/-- C3: the style image bound into the perceptual loss at construction
follows the trichotomy: no argument binds the default stock image (the demo
"paint" image at size 256); a path argument binds the image read from that
path; an in-memory tensor argument is bound unchanged. -/
theorem C3_style_image_trichotomy (backbones : String → MultiLayerEncoder)
    (args : StyleTransferArgs) (p : String) (t : Image) :
    (StyleTransfer.init backbones
          { args with style_image := none }).perceptual_loss.style_image
        = some (Image.stock "paint" 256)
      ∧ (StyleTransfer.init backbones
          { args with style_image := some (Sum.inl p) }).perceptual_loss.style_image
        = some (read_image p)
      ∧ (StyleTransfer.init backbones
          { args with style_image := some (Sum.inr t) }).perceptual_loss.style_image
        = some t :=
  ⟨rfl, rfl, rfl⟩

/-- C4: the assembled perceptual loss scores any output against bound content
and style images as `content_weight` times the feature-reconstruction term of
the content layer plus `style_weight` times the sum over the named style
layers of the modified-Gram comparison terms (per-layer weights combined by
summation). -/
theorem C4_perceptual_loss_assembly (backbones : String → MultiLayerEncoder)
    (backbone content_layer : String) (content_weight : ℚ)
    (style_layers : List String) (style_weight : ℚ) (c s out : Image) :
    (((get_perceptual_loss backbones backbone content_layer content_weight
            style_layers style_weight).set_content_image c).set_style_image s).total out
      = content_weight *
          sqDiffMat ((backbones backbone).extract_encoder content_layer c)
            ((backbones backbone).extract_encoder content_layer out)
        + style_weight *
          (style_layers.map (fun l =>
            sqDiffMat
              (GramOperator_enc_to_repr ((backbones backbone).extract_encoder l s))
              (GramOperator_enc_to_repr ((backbones backbone).extract_encoder l out)))).sum := by
  simp only [get_perceptual_loss, PerceptualLoss.total,
    PerceptualLoss.set_content_image, PerceptualLoss.set_style_image,
    FeatureReconstructionOperator, MultiLayerEncodingOperator,
    modified_gram_loss, GramOperator, EncodingComparisonOperator.score,
    OperatorContainer.score, List.map_map, Function.comp_def, id, if_pos,
    one_mul]

/-- C5: `training_step` reads the input image from the batch under the input
key, rebinds it as the perceptual loss's content image (visible in the
returned state), runs the model forward on it, and returns the content score
plus the style score of the output image; the style image, model, and
hyperparameters are untouched. -/
theorem C5_training_step_behavior (st : StyleTransfer) (batch : Batch)
    (batch_idx : ℕ) (s : Image) (h : st.perceptual_loss.style_image = some s) :
    (st.training_step batch batch_idx).1
        = st.perceptual_loss.content_loss.score (batch DefaultDataKeys.input)
            (st.model (batch DefaultDataKeys.input))
          + st.perceptual_loss.style_loss.score s
              (st.model (batch DefaultDataKeys.input))
      ∧ (st.training_step batch batch_idx).2.perceptual_loss.content_image
        = some (batch DefaultDataKeys.input)
      ∧ (st.training_step batch batch_idx).2.perceptual_loss.style_image
        = st.perceptual_loss.style_image
      ∧ (st.training_step batch batch_idx).2.model = st.model
      ∧ (st.training_step batch batch_idx).2.hparams = st.hparams := by
  refine ⟨?_, rfl, rfl, rfl, rfl⟩
  simp [StyleTransfer.training_step, StyleTransfer.forward,
    PerceptualLoss.total, PerceptualLoss.set_content_image, h]

/-- Witness for C5 at a concrete task, batch, and style image. -/
theorem C5_training_step_behavior_witness :
    testState.perceptual_loss.style_image = some (Image.tensor 7)
      ∧ ((testState.training_step testBatch 0).1
          = testState.perceptual_loss.content_loss.score
              (testBatch DefaultDataKeys.input)
              (testState.model (testBatch DefaultDataKeys.input))
            + testState.perceptual_loss.style_loss.score (Image.tensor 7)
                (testState.model (testBatch DefaultDataKeys.input))
        ∧ (testState.training_step testBatch 0).2.perceptual_loss.content_image
          = some (testBatch DefaultDataKeys.input)
        ∧ (testState.training_step testBatch 0).2.perceptual_loss.style_image
          = testState.perceptual_loss.style_image
        ∧ (testState.training_step testBatch 0).2.model = testState.model
        ∧ (testState.training_step testBatch 0).2.hparams = testState.hparams) :=
  ⟨rfl, C5_training_step_behavior testState testBatch 0 (Image.tensor 7) rfl⟩

/-- C6: the training-step loss is a deterministic function of the model, the
perceptual loss (encoder weights, layer names, loss weights, bound images),
and the batch: two tasks agreeing on model and perceptual loss produce the
same scalar on equal batches, whatever the batch indices and the remaining
configuration. -/
theorem C6_training_step_deterministic (st₁ st₂ : StyleTransfer)
    (b₁ b₂ : Batch) (i₁ i₂ : ℕ) (hm : st₁.model = st₂.model)
    (hp : st₁.perceptual_loss = st₂.perceptual_loss) (hb : b₁ = b₂) :
    (st₁.training_step b₁ i₁).1 = (st₂.training_step b₂ i₂).1 := by
  simp [StyleTransfer.training_step, StyleTransfer.forward, hm, hp, hb]

/-- Witness for C6: two concrete tasks differing only in the recorded
learning rate, on the same batch at different batch indices. -/
theorem C6_training_step_deterministic_witness :
    testState.model = testState2.model
      ∧ testState.perceptual_loss = testState2.perceptual_loss
      ∧ testBatch = testBatch
      ∧ (testState.training_step testBatch 0).1
        = (testState2.training_step testBatch 5).1 :=
  ⟨rfl, rfl, rfl,
    C6_training_step_deterministic testState testState2 testBatch testBatch 0 5
      rfl rfl rfl⟩

/-- C7: the persisted hyperparameter record holds every constructor argument
except the style image, and is independent of the style image argument. -/
theorem C7_hyperparameters (backbones : String → MultiLayerEncoder)
    (args : StyleTransferArgs) :
    (StyleTransfer.init backbones args).hparams
        = { model := args.model
            backbone := args.backbone
            content_layer := args.content_layer
            content_weight := args.content_weight
            style_layers := args.style_layers
            style_weight := args.style_weight
            optimizer := args.optimizer
            optimizer_kwargs := args.optimizer_kwargs
            scheduler := args.scheduler
            scheduler_kwargs := args.scheduler_kwargs
            learning_rate := args.learning_rate
            serializer := args.serializer }
      ∧ ∀ si₁ si₂ : Option (String ⊕ Image),
          (StyleTransfer.init backbones { args with style_image := si₁ }).hparams
            = (StyleTransfer.init backbones { args with style_image := si₂ }).hparams :=
  ⟨rfl, fun _ _ => rfl⟩

/-- A concrete task with content weight 0, a constant model, and a fixed
style image: the content image then never influences the loss. -/
def c8State : StyleTransfer :=
  StyleTransfer.init testRegistry
    { style_image := some (Sum.inr (Image.tensor 9))
      model := some (fun _ => Image.tensor 5)
      content_weight := 0 }

/-- A concrete batch whose images are all `Image.tensor 0`. -/
def c8Batch1 : Batch := fun _ => Image.tensor 0

/-- A concrete batch whose images are all `Image.tensor 1`. -/
def c8Batch2 : Batch := fun _ => Image.tensor 1

/-- C8 counterexample: with content weight 0 and a constant model, two
training steps whose bound content images differ (style image and model
weights fixed) return the same scalar loss, so differing content images do
not always make the scalars differ. -/
theorem C8_counterexample :
    c8Batch1 DefaultDataKeys.input ≠ c8Batch2 DefaultDataKeys.input
      ∧ (c8State.training_step c8Batch1 0).2.perceptual_loss.content_image
        ≠ (c8State.training_step c8Batch2 0).2.perceptual_loss.content_image
      ∧ (c8State.training_step c8Batch1 0).1 = (c8State.training_step c8Batch2 0).1 := by
  refine ⟨by decide, by decide, ?_⟩
  simp only [c8State, c8Batch1, c8Batch2, StyleTransfer.init,
    StyleTransfer.training_step, StyleTransfer.forward, PerceptualLoss.total,
    PerceptualLoss.set_content_image, PerceptualLoss.set_style_image,
    get_perceptual_loss, FeatureReconstructionOperator,
    EncodingComparisonOperator.score, zero_mul, zero_add]

/-- C8 (amended): rebinding the content image replaces the previous binding —
a training step after an earlier training step on any other batch returns the
same scalar as the same training step run fresh (no stale cached content
features), and whenever the weighted content terms of two content images
differ, the loss evaluations differ. -/
theorem C8_content_rebinding_effective (st : StyleTransfer) (b₁ b₂ : Batch)
    (i₁ i₂ : ℕ) (c₁ c₂ out : Image)
    (hc : st.perceptual_loss.content_loss.score c₁ out
      ≠ st.perceptual_loss.content_loss.score c₂ out) :
    ((st.training_step b₁ i₁).2.training_step b₂ i₂).1
        = (st.training_step b₂ i₂).1
      ∧ (st.perceptual_loss.set_content_image c₁).total out
        ≠ (st.perceptual_loss.set_content_image c₂).total out := by
  refine ⟨rfl, fun heq => hc ?_⟩
  have heq' :
      st.perceptual_loss.content_loss.score c₁ out
          + (match st.perceptual_loss.style_image with
            | some s => st.perceptual_loss.style_loss.score s out
            | none => 0)
        = st.perceptual_loss.content_loss.score c₂ out
          + (match st.perceptual_loss.style_image with
            | some s => st.perceptual_loss.style_loss.score s out
            | none => 0) := heq
  exact add_right_cancel heq'

/-- Witness for the amended C8 at a concrete task and concrete content
images with differing content terms. -/
theorem C8_content_rebinding_effective_witness :
    testState.perceptual_loss.content_loss.score (Image.tensor 0) (Image.tensor 0)
        ≠ testState.perceptual_loss.content_loss.score (Image.tensor 1) (Image.tensor 0)
      ∧ (((testState.training_step c8Batch1 0).2.training_step testBatch 1).1
          = (testState.training_step testBatch 1).1
        ∧ (testState.perceptual_loss.set_content_image (Image.tensor 0)).total
            (Image.tensor 0)
          ≠ (testState.perceptual_loss.set_content_image (Image.tensor 1)).total
            (Image.tensor 0)) :=
  ⟨by
    norm_num [testState, StyleTransfer.init, get_perceptual_loss,
      FeatureReconstructionOperator, PerceptualLoss.set_style_image,
      EncodingComparisonOperator.score, testRegistry, testEncoder, sqDiffMat,
      dot],
    C8_content_rebinding_effective testState c8Batch1 testBatch 0 1
      (Image.tensor 0) (Image.tensor 1) (Image.tensor 0)
      (by
        norm_num [testState, StyleTransfer.init, get_perceptual_loss,
          FeatureReconstructionOperator, PerceptualLoss.set_style_image,
          EncodingComparisonOperator.score, testRegistry, testEncoder,
          sqDiffMat, dot])⟩

/-- C9: the constructor defaults are backbone "vgg16", content layer
"relu2_2", content weight 1e5, style layers relu1_2/relu2_2/relu3_3/relu4_3,
style weight 1e10, the Adam optimizer, learning rate 1e-3, and no style
image, in which case construction binds the demo "paint" stock image read at
size 256. -/
theorem C9_constructor_defaults :
    ({} : StyleTransferArgs).backbone = "vgg16"
      ∧ ({} : StyleTransferArgs).content_layer = "relu2_2"
      ∧ ({} : StyleTransferArgs).content_weight = 100000
      ∧ ({} : StyleTransferArgs).style_layers
        = ["relu1_2", "relu2_2", "relu3_3", "relu4_3"]
      ∧ ({} : StyleTransferArgs).style_weight = 10000000000
      ∧ ({} : StyleTransferArgs).optimizer = OptimizerSpec.adam
      ∧ ({} : StyleTransferArgs).learning_rate = 1 / 1000
      ∧ ({} : StyleTransferArgs).style_image = none
      ∧ default_style_image = Image.stock "paint" 256
      ∧ ∀ backbones : String → MultiLayerEncoder,
          (StyleTransfer.init backbones {}).perceptual_loss.style_image
            = some (Image.stock "paint" 256) :=
  ⟨rfl, rfl, by norm_num, rfl, by norm_num, rfl, by norm_num, rfl, rfl,
    fun _ => rfl⟩

/-- C10: the validation and test steps raise the unsupported-operation signal
and leave every part of the task state unchanged — in particular the
perceptual loss's bound content and style images; the error path is atomic. -/
theorem C10_validation_test_atomic (st : StyleTransfer) (batch : Batch)
    (batch_idx : ℕ) :
    (st.validation_step batch batch_idx).2 = st
      ∧ (st.test_step batch batch_idx).2 = st
      ∧ (st.validation_step batch batch_idx).2.perceptual_loss.content_image
        = st.perceptual_loss.content_image
      ∧ (st.validation_step batch batch_idx).2.perceptual_loss.style_image
        = st.perceptual_loss.style_image
      ∧ (st.test_step batch batch_idx).2.perceptual_loss.content_image
        = st.perceptual_loss.content_image
      ∧ (st.test_step batch batch_idx).2.perceptual_loss.style_image
        = st.perceptual_loss.style_image
      ∧ (st.validation_step batch batch_idx).1
        = Except.error (NotSupportedError.mk "validation")
      ∧ (st.test_step batch batch_idx).1
        = Except.error (NotSupportedError.mk "test") :=
  ⟨rfl, rfl, rfl, rfl, rfl, rfl, rfl, rfl⟩

end StyleTransferModel
